import Mathlib

/-!
Shallow embedding of `src/services/geminiService.ts` (`fetchRecommendations`).

Modelling conventions:
* JS strings are Lean `String`s; `String.trim` / `Char.isWhitespace` model the
  whitespace classes of JS `trim` and the regex `\s` (both agree on the
  characters this code base manipulates).
* `toLowerCase` is modelled by `String.toLower` (ASCII case folding).
* Coordinates are only ever interpolated into strings, so `GeoLocation`
  carries the decimal renderings of `location.lat` / `location.lng`.
* `Date.now()` is an effect: it is passed in as `clock : Nat → Nat`, giving
  the timestamp observed at the construction of the record at each index.
* The outbound network call is passed in as an `Except` value; the pair
  returned by `fetchRecommendations` carries the `console.error` log lines.
-/

namespace Eating

structure GeoLocation where
  lat : String
  lng : String
deriving DecidableEq, Repr

/-- One of the two optional sources (`web` / `maps`) of a grounding chunk. -/
structure GroundingSource where
  title : Option String
  uri : Option String
deriving DecidableEq, Repr

structure GroundingChunk where
  web : Option GroundingSource
  maps : Option GroundingSource
deriving DecidableEq, Repr

structure GroundingMetadata where
  groundingChunks : Option (List GroundingChunk)
deriving DecidableEq, Repr

structure Candidate where
  groundingMetadata : Option GroundingMetadata
deriving DecidableEq, Repr

structure ServiceResponse where
  text : Option String
  candidates : Option (List Candidate)
deriving DecidableEq, Repr

structure Restaurant where
  id : String
  name : String
  cuisine : String
  priceLevel : String
  rating : String
  description : String
  mapUri : String
deriving DecidableEq, Repr

/-- JS `text.split(sep)` for a one-character separator, on the character
list of the string. -/
def splitOnChar (sep : Char) : List Char → List (List Char)
  | [] => [[]]
  | c :: cs =>
    match splitOnChar sep cs with
    | [] => [[]]
    | h :: t => if c = sep then [] :: h :: t else (c :: h) :: t

/-- JS `s.split(sep)` for a one-character separator. -/
def jsSplit (sep : Char) (s : String) : List String :=
  (splitOnChar sep s.data).map String.mk

/-- JS `s.trim()`: drop whitespace from both ends. -/
def jsTrim (s : String) : String :=
  String.mk
    (((s.data.dropWhile Char.isWhitespace).reverse.dropWhile
        Char.isWhitespace).reverse)

/-- JS `s.toLowerCase()` (ASCII case folding, as in `Char.toLower`). -/
def lowerStr (s : String) : String :=
  String.mk (s.data.map Char.toLower)

/-- JS `hay.includes(needle)`: substring containment. -/
def strIncludes (hay needle : String) : Bool :=
  (List.range (hay.data.length + 1)).any fun i =>
    decide ((hay.data.drop i).take needle.data.length = needle.data)

/-- JS `s || d` on strings: the empty string is falsy. -/
def orDefault (s d : String) : String := if s = "" then d else s

/-- The regex replace `.replace(/^\d+\.\s*/, '')`: drop a leading run of
digits followed by a literal dot and any whitespace. -/
def stripOrdinal (s : String) : String :=
  let ds := s.data.takeWhile Char.isDigit
  if ds.isEmpty then s
  else
    match s.data.drop ds.length with
    | c :: rest => if c = '.' then String.mk (rest.dropWhile Char.isWhitespace) else s
    | [] => s

/-- The regex replace `.replace(/\*/g, '')`. -/
def removeAsterisks (s : String) : String :=
  String.mk (s.data.filter fun c => c ≠ '*')

/-- The full name cleanup applied to `parts[0]`. -/
def cleanName (s : String) : String := removeAsterisks (stripOrdinal s)

/-- The predicate of `chunks.find(...)`: either source's title contains the
name, case-insensitively. -/
def chunkMatches (name : String) (c : GroundingChunk) : Bool :=
  (match c.web with
   | some w =>
     match w.title with
     | some t => strIncludes (lowerStr t) (lowerStr name)
     | none => false
   | none => false) ||
  (match c.maps with
   | some m =>
     match m.title with
     | some t => strIncludes (lowerStr t) (lowerStr name)
     | none => false
   | none => false)

def matchedChunk (chunks : List GroundingChunk) (name : String) : Option GroundingChunk :=
  chunks.find? (chunkMatches name)

/-- The uri taken from a matched chunk: `maps?.uri` if truthy, else
`web?.uri` if truthy, else the empty string. -/
def chunkUri (c : GroundingChunk) : String :=
  let mu := (c.maps.bind GroundingSource.uri).getD ("")
  let wu := (c.web.bind GroundingSource.uri).getD ("")
  if mu ≠ "" then mu else if wu ≠ "" then wu else ""

/-- Value of `mapUri` as it stands after the `if (matchedChunk)` block. -/
def groundedUri (chunks : List GroundingChunk) (name : String) : String :=
  match matchedChunk chunks name with
  | some c => chunkUri c
  | none => ""

/-- Characters `encodeURIComponent` leaves unescaped. -/
def isUnescapedURIChar (c : Char) : Bool :=
  c.isAlpha || c.isDigit || c = '-' || c = '_' || c = '.' || c = '!' ||
    c = '~' || c = '*' || c = Char.ofNat 39 || c = '(' || c = ')'

def hexDigit (n : Nat) : Char :=
  if n < 10 then Char.ofNat (48 + n) else Char.ofNat (55 + n)

/-- UTF-8 bytes of one scalar value. -/
def utf8Bytes (c : Char) : List Nat :=
  let n := c.toNat
  if n < 128 then [n]
  else if n < 2048 then [192 + n / 64, 128 + n % 64]
  else if n < 65536 then [224 + n / 4096, 128 + n / 64 % 64, 128 + n % 64]
  else [240 + n / 262144, 128 + n / 4096 % 64, 128 + n / 64 % 64, 128 + n % 64]

def percentByte (b : Nat) : List Char :=
  [Char.ofNat 37, hexDigit (b / 16), hexDigit (b % 16)]

def encodeURIComponent (s : String) : String :=
  String.mk (s.data.flatMap fun c =>
    if isUnescapedURIChar c then [c] else (utf8Bytes c).flatMap percentByte)

/-- The synthesized fallback search link of line 87. -/
def fallbackMapUri (loc : GeoLocation) (name : String) : String :=
  "https://www.google.com/maps/search/?api=1&query=" ++
    encodeURIComponent (name ++ " " ++ loc.lat ++ "," ++ loc.lng)

/-- Embeds `line.split('|').map(s => s.trim())`. -/
def parsedParts (line : String) : List String :=
  (jsSplit '|' line).map jsTrim

/-- Embeds line 66: the cleaned `parts[0]` with the default name. -/
def parsedName (line : String) : String :=
  orDefault (cleanName ((parsedParts line).getD 0 "")) "未知餐廳"

/-- The record's final `mapUri`: the grounded uri when usable, otherwise the
synthesized fallback link. -/
def recordMapUri (loc : GeoLocation) (chunks : List GroundingChunk)
    (line : String) : String :=
  let g := groundedUri chunks (parsedName line)
  if g = "" then fallbackMapUri loc (parsedName line) else g

/-- The body of `lines.slice(0, 5).map((line, index) => ...)`. -/
def mkRestaurant (loc : GeoLocation) (chunks : List GroundingChunk)
    (clock : Nat → Nat) (index : Nat) (line : String) : Restaurant :=
  { id := "rest-" ++ toString index ++ "-" ++ toString (clock index),
    name := parsedName line,
    cuisine := orDefault ((parsedParts line).getD 1 "") "美食",
    priceLevel := orDefault ((parsedParts line).getD 2 "") "$",
    rating := orDefault ((parsedParts line).getD 3 "") "N/A",
    description := orDefault ((parsedParts line).getD 4 "") "暫無描述。",
    mapUri := recordMapUri loc chunks line }

/-- Embeds `text.split('\n').filter(line => line.includes('|'))`. -/
def qualifyingLines (text : String) : List String :=
  (jsSplit '\n' text).filter fun line => line.data.contains '|'

/-- The whole text-to-records transformation of a successful response. -/
def parseRestaurants (loc : GeoLocation) (chunks : List GroundingChunk)
    (clock : Nat → Nat) (text : String) : List Restaurant :=
  ((qualifyingLines text).take 5).mapIdx (mkRestaurant loc chunks clock)

/-- Embeds `response.candidates?.[0]?.groundingMetadata?.groundingChunks || []`. -/
def responseChunks (r : ServiceResponse) : List GroundingChunk :=
  ((((r.candidates.getD []).head?).bind Candidate.groundingMetadata).bind
    GroundingMetadata.groundingChunks).getD []

/-- The try/catch shell: a failed service call is logged once and rethrown;
a successful one is parsed. The second component carries the log lines. -/
def fetchRecommendations (loc : GeoLocation) (clock : Nat → Nat)
    (svc : Except String ServiceResponse) :
    Except String (List Restaurant) × List String :=
  match svc with
  | .error e => (.error e, ["Error fetching recommendations: " ++ e])
  | .ok r =>
    (.ok (parseRestaurants loc (responseChunks r) clock (r.text.getD (""))), [])

/-! ### Basic lemmas about the embedding -/

lemma fallbackMapUri_ne_empty (loc : GeoLocation) (name : String) :
    fallbackMapUri loc name ≠ "" := by
  intro h
  have hd : ("https://www.google.com/maps/search/?api=1&query=").data ++
      (encodeURIComponent (name ++ " " ++ loc.lat ++ "," ++ loc.lng)).data =
        ([] : List Char) := congrArg String.data h
  rcases List.append_eq_nil.mp hd with ⟨h1, -⟩
  exact absurd h1 (by decide)

lemma mkRestaurant_name (loc : GeoLocation) (chunks : List GroundingChunk)
    (clock : Nat → Nat) (index : Nat) (line : String) :
    (mkRestaurant loc chunks clock index line).name = parsedName line := rfl

lemma mkRestaurant_mapUri (loc : GeoLocation) (chunks : List GroundingChunk)
    (clock : Nat → Nat) (index : Nat) (line : String) :
    (mkRestaurant loc chunks clock index line).mapUri =
      recordMapUri loc chunks line := rfl

lemma recordMapUri_eq_ite (loc : GeoLocation) (chunks : List GroundingChunk)
    (line : String) :
    recordMapUri loc chunks line =
      if groundedUri chunks (parsedName line) = ""
      then fallbackMapUri loc (parsedName line)
      else groundedUri chunks (parsedName line) := rfl

lemma recordMapUri_spec (loc : GeoLocation) (chunks : List GroundingChunk)
    (line : String) :
    recordMapUri loc chunks line ≠ "" ∧
      (groundedUri chunks (parsedName line) = "" →
        recordMapUri loc chunks line = fallbackMapUri loc (parsedName line)) := by
  rw [recordMapUri_eq_ite]
  by_cases hg : groundedUri chunks (parsedName line) = ""
  · rw [if_pos hg]
    exact ⟨fallbackMapUri_ne_empty _ _, fun _ => rfl⟩
  · rw [if_neg hg]
    exact ⟨hg, fun h => absurd h hg⟩

/-! ### The claims -/

/-- C1: every record returned by a successful `fetchRecommendations` has a
non-empty `mapUri`; whenever no grounding chunk matches the parsed name, or
the matched chunk carries no usable uri (`groundedUri` is empty), the
`mapUri` is the synthesized Google-Maps search link built from the
percent-encoded restaurant name and the query coordinate. -/
theorem C1_mapUri_never_empty (loc : GeoLocation) (clock : Nat → Nat)
    (resp : ServiceResponse) (rs : List Restaurant) (r : Restaurant)
    (hok : (fetchRecommendations loc clock (Except.ok resp)).1 = Except.ok rs)
    (hr : r ∈ rs) :
    r.mapUri ≠ "" ∧
      (groundedUri (responseChunks resp) r.name = "" →
        r.mapUri = fallbackMapUri loc r.name) := by
  have hrs : rs = parseRestaurants loc (responseChunks resp) clock
      (resp.text.getD ("")) := (Except.ok.inj hok).symm
  subst hrs
  rw [parseRestaurants] at hr
  obtain ⟨i, hi, heq⟩ := List.mem_mapIdx.mp hr
  subst heq
  refine ⟨?_, ?_⟩
  · rw [mkRestaurant_mapUri]
    exact (recordMapUri_spec _ _ _).1
  · rw [mkRestaurant_mapUri, mkRestaurant_name]
    exact (recordMapUri_spec _ _ _).2

/-- Witness for C1 at a concrete response. -/
theorem C1_witness :
    (mkRestaurant ⟨"1", "2"⟩ [] (fun _ => 0) 0 "a | b").mapUri ≠ "" :=
  (C1_mapUri_never_empty ⟨"1", "2"⟩ (fun _ => 0) ⟨some ("a | b"), none⟩
    (parseRestaurants ⟨"1", "2"⟩ [] (fun _ => 0) "a | b")
    (mkRestaurant ⟨"1", "2"⟩ [] (fun _ => 0) 0 "a | b") rfl (by decide)).1

/-- C2: when the response text contains at least 5 lines with a pipe
character, a successful fetch returns exactly 5 records; the i-th record is
built from the i-th qualifying line (lines without a pipe are discarded
before counting), so records keep the original line order. -/
theorem C2_exactly_five (loc : GeoLocation) (clock : Nat → Nat)
    (resp : ServiceResponse) (rs : List Restaurant)
    (hok : (fetchRecommendations loc clock (Except.ok resp)).1 = Except.ok rs)
    (h5 : 5 ≤ (qualifyingLines (resp.text.getD (""))).length) :
    rs.length = 5 ∧
      ∀ i : Nat, i < 5 →
        rs[i]? = ((qualifyingLines (resp.text.getD ("")))[i]?).map
          (mkRestaurant loc (responseChunks resp) clock i) := by
  have hrs : rs = parseRestaurants loc (responseChunks resp) clock
      (resp.text.getD ("")) := (Except.ok.inj hok).symm
  subst hrs
  rw [parseRestaurants]
  refine ⟨?_, ?_⟩
  · rw [List.length_mapIdx, List.length_take]
    exact Nat.min_eq_left h5
  · intro i hi
    rw [List.getElem?_mapIdx, List.getElem?_take_of_lt hi]

/-- Witness for C2: a text with six qualifying lines yields 5 records. -/
theorem C2_witness :
    (parseRestaurants ⟨"1", "2"⟩ [] (fun _ => 0)
      "a|1\nb|2\nc|3\nd|4\ne|5\nf|6").length = 5 :=
  (C2_exactly_five ⟨"1", "2"⟩ (fun _ => 0)
    ⟨some ("a|1\nb|2\nc|3\nd|4\ne|5\nf|6"), none⟩
    (parseRestaurants ⟨"1", "2"⟩ [] (fun _ => 0) "a|1\nb|2\nc|3\nd|4\ne|5\nf|6")
    rfl (by decide)).1

/-- C3: when the response text contains fewer than 5 qualifying lines, a
successful fetch returns exactly one record per qualifying line — the
result is never padded up to 5 entries. -/
theorem C3_no_padding (loc : GeoLocation) (clock : Nat → Nat)
    (resp : ServiceResponse) (rs : List Restaurant)
    (hok : (fetchRecommendations loc clock (Except.ok resp)).1 = Except.ok rs)
    (hlt : (qualifyingLines (resp.text.getD (""))).length < 5) :
    rs.length = (qualifyingLines (resp.text.getD (""))).length := by
  have hrs : rs = parseRestaurants loc (responseChunks resp) clock
      (resp.text.getD ("")) := (Except.ok.inj hok).symm
  subst hrs
  rw [parseRestaurants, List.length_mapIdx, List.length_take]
  exact Nat.min_eq_right (Nat.le_of_lt hlt)

/-- Witness for C3: two qualifying lines yield two records. -/
theorem C3_witness :
    (parseRestaurants ⟨"1", "2"⟩ [] (fun _ => 0) "x\na|1\nb|2").length =
      (qualifyingLines ("x\na|1\nb|2")).length :=
  C3_no_padding ⟨"1", "2"⟩ (fun _ => 0) ⟨some ("x\na|1\nb|2"), none⟩
    (parseRestaurants ⟨"1", "2"⟩ [] (fun _ => 0) "x\na|1\nb|2")
    rfl (by decide)

lemma orDefault_empty (d : String) : orDefault ("") d = d := rfl

/-- C4: parsing a line never fails; a qualifying line with fewer than 5
pipe-delimited fields takes the documented default for each absent field
(and the default name fires when the cleaned first field is empty), so the
parser is total over arbitrary response text. -/
theorem C4_defaults_absent (loc : GeoLocation) (chunks : List GroundingChunk)
    (clock : Nat → Nat) (index : Nat) (line : String) :
    (cleanName ((parsedParts line).getD 0 "") = "" →
      (mkRestaurant loc chunks clock index line).name = "未知餐廳") ∧
    ((parsedParts line).length ≤ 1 →
      (mkRestaurant loc chunks clock index line).cuisine = "美食") ∧
    ((parsedParts line).length ≤ 2 →
      (mkRestaurant loc chunks clock index line).priceLevel = "$") ∧
    ((parsedParts line).length ≤ 3 →
      (mkRestaurant loc chunks clock index line).rating = "N/A") ∧
    ((parsedParts line).length ≤ 4 →
      (mkRestaurant loc chunks clock index line).description = "暫無描述。") := by
  refine ⟨fun h => ?_, fun h => ?_, fun h => ?_, fun h => ?_, fun h => ?_⟩
  · show orDefault (cleanName ((parsedParts line).getD 0 "")) "未知餐廳" = _
    rw [h, orDefault_empty]
  · show orDefault ((parsedParts line).getD 1 "") "美食" = _
    rw [List.getD_eq_default _ _ h, orDefault_empty]
  · show orDefault ((parsedParts line).getD 2 "") "$" = _
    rw [List.getD_eq_default _ _ h, orDefault_empty]
  · show orDefault ((parsedParts line).getD 3 "") "N/A" = _
    rw [List.getD_eq_default _ _ h, orDefault_empty]
  · show orDefault ((parsedParts line).getD 4 "") "暫無描述。" = _
    rw [List.getD_eq_default _ _ h, orDefault_empty]

/-- Witness for C4: the empty line takes every default. -/
theorem C4_witness :
    (mkRestaurant ⟨"1", "2"⟩ [] (fun _ => 0) 0 "").name = "未知餐廳" ∧
    (mkRestaurant ⟨"1", "2"⟩ [] (fun _ => 0) 0 "").cuisine = "美食" ∧
    (mkRestaurant ⟨"1", "2"⟩ [] (fun _ => 0) 0 "").priceLevel = "$" ∧
    (mkRestaurant ⟨"1", "2"⟩ [] (fun _ => 0) 0 "").rating = "N/A" ∧
    (mkRestaurant ⟨"1", "2"⟩ [] (fun _ => 0) 0 "").description = "暫無描述。" := by
  obtain ⟨h1, h2, h3, h4, h5⟩ := C4_defaults_absent ⟨"1", "2"⟩ [] (fun _ => 0) 0 ""
  exact ⟨h1 (by decide), h2 (by decide), h3 (by decide), h4 (by decide),
    h5 (by decide)⟩

/-- C10: default substitution also fires for fields that are present but
trim to the empty string, not only for absent fields; in particular the
qualifying line "鼎泰豐 || $$ | 4.5 | desc" yields the default cuisine. -/
theorem C10_defaults_empty_field (loc : GeoLocation)
    (chunks : List GroundingChunk) (clock : Nat → Nat) (index : Nat)
    (line : String) :
    ((parsedParts line).getD 1 "" = "" →
      (mkRestaurant loc chunks clock index line).cuisine = "美食") ∧
    ((parsedParts line).getD 2 "" = "" →
      (mkRestaurant loc chunks clock index line).priceLevel = "$") ∧
    ((parsedParts line).getD 3 "" = "" →
      (mkRestaurant loc chunks clock index line).rating = "N/A") ∧
    ((parsedParts line).getD 4 "" = "" →
      (mkRestaurant loc chunks clock index line).description = "暫無描述。") ∧
    (mkRestaurant loc chunks clock index ("鼎泰豐 || $$ | 4.5 | desc")).cuisine =
      "美食" := by
  refine ⟨fun h => ?_, fun h => ?_, fun h => ?_, fun h => ?_, rfl⟩
  · show orDefault ((parsedParts line).getD 1 "") "美食" = _
    rw [h, orDefault_empty]
  · show orDefault ((parsedParts line).getD 2 "") "$" = _
    rw [h, orDefault_empty]
  · show orDefault ((parsedParts line).getD 3 "") "N/A" = _
    rw [h, orDefault_empty]
  · show orDefault ((parsedParts line).getD 4 "") "暫無描述。" = _
    rw [h, orDefault_empty]

/-- Witness for C10: a line of three pipes has every field present and
empty after trimming, and every field takes its default. -/
theorem C10_witness :
    (mkRestaurant ⟨"1", "2"⟩ [] (fun _ => 0) 0 "|||").cuisine = "美食" ∧
    (mkRestaurant ⟨"1", "2"⟩ [] (fun _ => 0) 0 "|||").priceLevel = "$" ∧
    (mkRestaurant ⟨"1", "2"⟩ [] (fun _ => 0) 0 "|||").rating = "N/A" ∧
    (mkRestaurant ⟨"1", "2"⟩ [] (fun _ => 0) 0 "|||").description = "暫無描述。" := by
  obtain ⟨h1, h2, h3, h4, -⟩ :=
    C10_defaults_empty_field ⟨"1", "2"⟩ [] (fun _ => 0) 0 "|||"
  exact ⟨h1 (by decide), h2 (by decide), h3 (by decide), h4 (by decide)⟩

/-- C5: a failed outbound service call makes the whole fetch fail: the
error is logged once and rethrown unchanged, and no record list (partial or
otherwise) is produced. -/
theorem C5_error_propagates (loc : GeoLocation) (clock : Nat → Nat)
    (e : String) :
    fetchRecommendations loc clock (Except.error e) =
      (Except.error e, ["Error fetching recommendations: " ++ e]) := rfl

lemma find?_first {α : Type} (p : α → Bool) :
    ∀ (l : List α) (i : Nat) (hi : i < l.length), p (l.get ⟨i, hi⟩) = true →
      (∀ j (hj : j < i), p (l.get ⟨j, Nat.lt_trans hj hi⟩) = false) →
      l.find? p = some (l.get ⟨i, hi⟩)
  | [], i, hi, _, _ => absurd hi (Nat.not_lt_zero i)
  | a :: t, 0, _, hp, _ => List.find?_cons_of_pos t hp
  | a :: t, i + 1, hi, hp, hbef => by
    have ha : p a = false := hbef 0 (Nat.succ_pos i)
    rw [List.find?_cons_of_neg t (by simp [ha])]
    exact find?_first p t i (Nat.lt_of_succ_lt_succ hi) hp
      (fun j hj => hbef (j + 1) (Nat.succ_lt_succ hj))

/-- C6: grounding reconciliation selects the first chunk of the list whose
web-source or maps-source title contains the parsed name as a
case-insensitive substring; in particular a single maps chunk titled
"Din Tai Fung Taipei" with uri "U1" gives a record parsed as
"din tai fung" the mapUri "U1". -/
theorem C6_first_matching_chunk :
    (∀ (chunks : List GroundingChunk) (name : String) (i : Nat)
        (hi : i < chunks.length),
      chunkMatches name (chunks.get ⟨i, hi⟩) = true →
      (∀ j (hj : j < i),
        chunkMatches name (chunks.get ⟨j, Nat.lt_trans hj hi⟩) = false) →
      matchedChunk chunks name = some (chunks.get ⟨i, hi⟩)) ∧
    (mkRestaurant ⟨"25", "121"⟩
      [⟨none, some ⟨some ("Din Tai Fung Taipei"), some ("U1")⟩⟩] (fun _ => 0) 0
      "din tai fung | 麵食 | $$ | 4.5 | 讚").mapUri = "U1" := by
  refine ⟨?_, by decide⟩
  intro chunks name i hi hp hbef
  exact find?_first (chunkMatches name) chunks i hi hp hbef

/-- Witness for the general part of C6. -/
theorem C6_witness :
    matchedChunk [⟨some ⟨some ("Foo Place"), some ("W1")⟩, none⟩] "foo" =
      some ⟨some ⟨some ("Foo Place"), some ("W1")⟩, none⟩ :=
  C6_first_matching_chunk.1 [⟨some ⟨some ("Foo Place"), some ("W1")⟩, none⟩]
    "foo" 0 (by decide) (by decide)
    (fun j hj => absurd hj (Nat.not_lt_zero j))

lemma chunkUri_eq_ite (c : GroundingChunk) :
    chunkUri c =
      if (c.maps.bind GroundingSource.uri).getD ("") ≠ ""
      then (c.maps.bind GroundingSource.uri).getD ("")
      else if (c.web.bind GroundingSource.uri).getD ("") ≠ ""
      then (c.web.bind GroundingSource.uri).getD ("")
      else "" := rfl

/-- C7: when the matched grounding chunk carries both a maps-source uri and
a web-source uri, the record's mapUri is the maps-source uri. -/
theorem C7_maps_uri_precedence (loc : GeoLocation)
    (chunks : List GroundingChunk) (clock : Nat → Nat) (index : Nat)
    (line : String) (c : GroundingChunk) (mu wu : String)
    (hm : matchedChunk chunks (parsedName line) = some c)
    (hmaps : c.maps.bind GroundingSource.uri = some mu)
    (_hweb : c.web.bind GroundingSource.uri = some wu)
    (hmu : mu ≠ "") :
    (mkRestaurant loc chunks clock index line).mapUri = mu := by
  have hc : chunkUri c = mu := by
    rw [chunkUri_eq_ite, hmaps, Option.getD_some, if_pos hmu]
  have hg : groundedUri chunks (parsedName line) = mu := by
    simp only [groundedUri, hm, hc]
  rw [mkRestaurant_mapUri, recordMapUri_eq_ite, hg, if_neg hmu]

/-- Witness for C7 at a chunk carrying both uris. -/
theorem C7_witness :
    (mkRestaurant ⟨"1", "2"⟩
      [⟨some ⟨some ("Foo Place"), some ("W1")⟩, some ⟨some ("Foo Place"), some ("M1")⟩⟩]
      (fun _ => 0) 0 "Foo | a | b | c | d").mapUri = "M1" :=
  C7_maps_uri_precedence ⟨"1", "2"⟩
    [⟨some ⟨some ("Foo Place"), some ("W1")⟩, some ⟨some ("Foo Place"), some ("M1")⟩⟩]
    (fun _ => 0) 0 "Foo | a | b | c | d"
    ⟨some ⟨some ("Foo Place"), some ("W1")⟩, some ⟨some ("Foo Place"), some ("M1")⟩⟩
    "M1" "W1" (by decide) rfl rfl (by decide)

lemma takeWhile_append_stop {p : Char → Bool} :
    ∀ (l : List Char) (x : Char) (r : List Char), (∀ c ∈ l, p c = true) →
      p x = false → (l ++ x :: r).takeWhile p = l
  | [], x, r, _, hx => by simp [List.takeWhile_cons, hx]
  | a :: t, x, r, hl, hx => by
    have ha : p a = true := hl a (List.mem_cons_self a t)
    simp only [List.cons_append, List.takeWhile_cons, ha, if_true]
    rw [takeWhile_append_stop t x r (fun c hc => hl c (List.mem_cons_of_mem a hc)) hx]

/-- C8: name cleanup strips a leading numeric ordinal "N." together with
the whitespace after it, removes every asterisk, and on the concrete field
"1. 鼎泰豐" yields "鼎泰豐". -/
theorem C8_name_cleanup :
    (cleanName ("1. 鼎泰豐") = "鼎泰豐") ∧
    (∀ (ds rest : List Char), ds ≠ [] → (∀ c ∈ ds, c.isDigit = true) →
      cleanName (String.mk (ds ++ '.' :: rest)) =
        removeAsterisks (String.mk (rest.dropWhile Char.isWhitespace))) ∧
    (∀ s : String, '*' ∉ (cleanName s).data) := by
  refine ⟨by decide, ?_, ?_⟩
  · intro ds rest hne hds
    rw [cleanName]
    congr 1
    have ht : (String.mk (ds ++ '.' :: rest)).data.takeWhile Char.isDigit = ds :=
      takeWhile_append_stop ds '.' rest hds (by decide)
    have hemp : ds.isEmpty = false := by
      cases ds with
      | nil => exact absurd rfl hne
      | cons a t => rfl
    simp only [stripOrdinal, ht, hemp, Bool.false_eq_true, if_false]
    rw [show (String.mk (ds ++ '.' :: rest)).data.drop ds.length = '.' :: rest
      from List.drop_left ds ('.' :: rest)]
    rfl
  · intro s h
    have h' : ('*' : Char) ∈ (stripOrdinal s).data.filter
        (fun c => decide (c ≠ '*')) := h
    exact absurd (List.mem_filter.mp h').2 (by decide)

/-- Witness for the general part of C8. -/
theorem C8_witness :
    cleanName (String.mk (['2'] ++ '.' :: ' ' :: "Foo".data)) =
      removeAsterisks (String.mk ((' ' :: "Foo".data).dropWhile
        Char.isWhitespace)) :=
  C8_name_cleanup.2.1 ['2'] (' ' :: "Foo".data) (by decide) (by decide)

/-- Every field of a record except the synthetic id. -/
def contentOf (r : Restaurant) : List String :=
  [r.name, r.cuisine, r.priceLevel, r.rating, r.description, r.mapUri]

/-- C9 fails as stated: the id embeds the timestamp captured at parse time
(`Date.now()`), so two runs over the very same response text and chunk list
that observe different clocks return record lists that differ (in id). -/
theorem C9_counterexample :
    parseRestaurants ⟨"25", "121"⟩ [] (fun _ => 0) "a | b" ≠
      parseRestaurants ⟨"25", "121"⟩ [] (fun _ => 1) "a | b" := by decide

/-- C9 amended: the transformation is deterministic given the captured
timestamps: every field except id depends only on the response text, the
chunk list and the location, and the id is exactly the ordinal position
paired with the timestamp observed at that position. -/
theorem C9_deterministic_content (loc : GeoLocation)
    (chunks : List GroundingChunk) (clock clockB : Nat → Nat)
    (text : String) :
    (parseRestaurants loc chunks clock text).map contentOf =
      (parseRestaurants loc chunks clockB text).map contentOf ∧
    ∀ (i : Nat) (r : Restaurant),
      (parseRestaurants loc chunks clock text)[i]? = some r →
      r.id = "rest-" ++ toString i ++ "-" ++ toString (clock i) := by
  constructor
  · apply List.ext_getElem?
    intro i
    rw [parseRestaurants, parseRestaurants, List.getElem?_map,
      List.getElem?_map, List.getElem?_mapIdx, List.getElem?_mapIdx]
    cases hl : ((qualifyingLines text).take 5)[i]? with
    | none => rfl
    | some line => rfl
  · intro i r hr
    rw [parseRestaurants, List.getElem?_mapIdx] at hr
    cases hl : ((qualifyingLines text).take 5)[i]? with
    | none => rw [hl] at hr; exact absurd hr (by simp)
    | some line =>
      rw [hl] at hr
      have hmk : mkRestaurant loc chunks clock i line = r := Option.some.inj hr
      rw [← hmk]
      rfl

/-- Witness for the id shape in the amended C9. -/
theorem C9_witness :
    (mkRestaurant ⟨"1", "2"⟩ [] (fun _ => 7) 0 "a | b").id = "rest-0-7" :=
  (C9_deterministic_content ⟨"1", "2"⟩ [] (fun _ => 7) (fun _ => 7)
    "a | b").2 0 (mkRestaurant ⟨"1", "2"⟩ [] (fun _ => 7) 0 "a | b")
    (by decide)

end Eating
